import Mathlib

/-!
Shallow embedding of the Weather Shopper automation page objects
(`pages/home_page.py`, `pages/product_page.py`, `pages/cart_page.py`,
`pages/payment_page.py`) and proofs about their pure decision and
parsing logic.

Python strings are modelled as lists of characters (`PyStr`); each
Python string primitive used by the code gets a small executable
definition below.  Fallible operations return `Except PyError`.
-/

namespace WeatherShopper

/-- Python strings, modelled at the character level. -/
abbrev PyStr := List Char

/-- Python exceptions raised (or caught) by the embedded code.  Each
constructor is commented with the raise site it models. -/
inductive PyError where
  /-- `ingredient.split("-")[1]` with no `"-"` in the tag. -/
  | indexError : PyError
  /-- `int(...)` applied to a non-numeric string. -/
  | valueError : PyError
  /-- a `WebDriverWait(...).until(...)` that timed out. -/
  | timeoutError : PyError
  /-- `find_element` found nothing. -/
  | noSuchElement : PyError
  /-- `raise ValueError(f"Unknown product category: ...")`. -/
  | unknownCategory : PyError
  /-- `raise Exception(f"Could not find required products for ...")`. -/
  | selectionIncomplete : PyError
  deriving Repr, DecidableEq

/-- `needle.isPrefixOf hay` spelled out: does `hay` start with `needle`? -/
def listStartsWith : PyStr → PyStr → Bool
  | [], _ => true
  | _ :: _, [] => false
  | a :: t1, b :: t2 => a == b && listStartsWith t1 t2

/-- Python `needle in hay` for strings: contiguous-substring test. -/
def pyIn (needle : PyStr) : PyStr → Bool
  | [] => needle.isEmpty
  | c :: t => listStartsWith needle (c :: t) || pyIn needle t

/-- Python `s.lower()` (ASCII model). -/
def pyLower (s : PyStr) : PyStr := s.map Char.toLower

/-- Python `s.strip()`: drop leading and trailing whitespace. -/
def pyStrip (s : PyStr) : PyStr :=
  ((s.dropWhile Char.isWhitespace).reverse.dropWhile Char.isWhitespace).reverse

/-- Python `s.replace(",", "")`: drop every comma. -/
def removeCommas (s : PyStr) : PyStr := s.filter (fun c => c ≠ ',')

/-- Value of a digit string, as Python `int` on an all-digit string. -/
def digitsToNat (s : PyStr) : Nat :=
  s.foldl (fun a c => 10 * a + (c.toNat - 48)) 0

/-- The first contiguous digit run of `s`, as matched by the regular
expression `(\d+)` under `re.search`; `none` when `s` has no digit. -/
def firstDigitRun : PyStr → Option PyStr
  | [] => none
  | c :: t => if c.isDigit then some (c :: t.takeWhile Char.isDigit) else firstDigitRun t

/-- Python `s.split(sep)` for a one-character separator `sep`. -/
def pySplitOnChar (sep : Char) : PyStr → List PyStr
  | [] => [[]]
  | c :: t =>
    let r := pySplitOnChar sep t
    if c = sep then [] :: r
    else
      match r with
      | [] => [[c]]
      | h :: t2 => (c :: h) :: t2

/-! ### Home page (`pages/home_page.py`)

`get_current_temperature` reads the page; the three predicates and the
router below are its pure consumers, taking the already-read temperature
as input. -/

/-- `HomePage.should_buy_moisturizers`: temperature strictly below 19. -/
def should_buy_moisturizers (t : Int) : Bool := t < 19

/-- `HomePage.should_buy_sunscreens`: temperature strictly above 34. -/
def should_buy_sunscreens (t : Int) : Bool := t > 34

/-- `HomePage.is_moderate_temperature`: `19 <= temp <= 34`. -/
def is_moderate_temperature (t : Int) : Bool :=
  decide (19 ≤ t) && decide (t ≤ 34)

/-- `HomePage.navigate_to_appropriate_category`: dispatch on temperature,
returning the category string the Python method returns. -/
def navigate_to_appropriate_category (t : Int) : String :=
  if should_buy_moisturizers t then "moisturizers"
  else if should_buy_sunscreens t then "sunscreens"
  else "none"

/-- C3: the category decision is `moisturizers` iff `t < 19`,
`sunscreens` iff `t > 34`, and `none` iff `19 ≤ t ≤ 34`; boundary
values 19 and 34 fall in the `none` band, 18 routes to moisturizers and
35 to sunscreens. -/
theorem c3_temperature_routing (t : Int) :
    (should_buy_moisturizers t = true ↔ t < 19) ∧
    (should_buy_sunscreens t = true ↔ 34 < t) ∧
    (is_moderate_temperature t = true ↔ 19 ≤ t ∧ t ≤ 34) ∧
    (navigate_to_appropriate_category t = "moisturizers" ↔ t < 19) ∧
    (navigate_to_appropriate_category t = "sunscreens" ↔ 34 < t) ∧
    (navigate_to_appropriate_category t = "none" ↔ 19 ≤ t ∧ t ≤ 34) ∧
    navigate_to_appropriate_category 19 = "none" ∧
    navigate_to_appropriate_category 34 = "none" ∧
    navigate_to_appropriate_category 18 = "moisturizers" ∧
    navigate_to_appropriate_category 35 = "sunscreens" := by
  refine ⟨?_, ?_, ?_, ?_, ?_, ?_, by decide, by decide, by decide, by decide⟩ <;>
    simp only [should_buy_moisturizers, should_buy_sunscreens, is_moderate_temperature,
      navigate_to_appropriate_category, decide_eq_true_eq, Bool.and_eq_true, gt_iff_lt] <;>
    split_ifs with h1 h2 <;> simp_all <;> try omega

/-! ### Product page (`pages/product_page.py`) -/

/-- A parsed catalog product.  The Python dict also carries the live
element and add-button handles; those are opaque references never
inspected by the logic proved about, so they are not modelled. -/
structure Product where
  name : PyStr
  price : Nat
  deriving Repr, DecidableEq

/-- Raw input of `ProductPage.get_all_products` for one `.col-4` card:
the text of its `p` tags and whether the card has a `button` child
(`elem.find_element(By.TAG_NAME, "button")` succeeds). -/
structure Card where
  paragraphs : List PyStr
  hasButton : Bool
  deriving Repr, DecidableEq

/-- Price extraction step of the per-card loop of
`ProductPage.get_all_products`: given the first `p` tag containing
`"Price"` (if any), the price is `int(''.join(filter(str.isdigit,
price_text)))` — the concatenation of every digit character.  `none`
models `continue` (card skipped): no price text, `int` on an empty
digit string raising `ValueError`, or no button (`find_element`
raising, caught by the `except` of the loop). -/
def price_from_label (name : PyStr) (found : Option PyStr) (hasButton : Bool) :
    Option Product :=
  match found with
  | none => none
  | some price_text =>
    match price_text.filter Char.isDigit with
    | [] => none
    | d :: ds => if hasButton then some ⟨name, digitsToNat (d :: ds)⟩ else none

/-- Body of the per-card loop of `ProductPage.get_all_products`: the
name is the stripped first `p` tag (no paragraphs means `continue`),
then the price is read by `price_from_label`. -/
def parse_product_card (c : Card) : Option Product :=
  match c.paragraphs with
  | [] => none
  | p0 :: _ =>
    price_from_label (pyStrip p0)
      (c.paragraphs.find? (fun p => pyIn (("Price").toList) p)) c.hasButton

/-- `ProductPage.get_all_products`: parse every card, keeping the ones
that survive the loop body. -/
def get_all_products (cards : List Card) : List Product :=
  cards.filterMap parse_product_card

/-- `ProductPage.filter_products_by_ingredient`.  When the tag contains
`"SPF"`, `ingredient.split("-")[1]` raises `IndexError` unless a hyphen
is present; otherwise the match is a plain substring test for
`SPF-<n>` or `SPF <n>`.  Other tags match case-insensitively. -/
def filter_products_by_ingredient (products : List Product) (ingredient : PyStr) :
    Except PyError (List Product) :=
  if pyIn (("SPF").toList) ingredient then
    match (pySplitOnChar '-' ingredient)[1]? with
    | none => .error .indexError
    | some spf_number =>
      .ok (products.filter fun p =>
        pyIn (("SPF-").toList ++ spf_number) p.name ||
        pyIn (("SPF ").toList ++ spf_number) p.name)
  else
    .ok (products.filter fun p => pyIn (pyLower ingredient) (pyLower p.name))

/-- The accumulator loop of Python `min(products, key=lambda x: x['price'])`:
the running best is replaced only on a strictly smaller key, so the
first occurrence of the minimum is kept. -/
def min_by_price (best : Product) : List Product → Product
  | [] => best
  | q :: t => min_by_price (if q.price < best.price then q else best) t

/-- `ProductPage.find_cheapest_product`: `None` on an empty list, else
`min` by price. -/
def find_cheapest_product : List Product → Option Product
  | [] => none
  | p :: t => some (min_by_price p t)

/-- Splitting on a character that does not occur leaves the string whole,
so Python `s.split(sep)` is the one-element list `[s]`. -/
theorem pySplitOnChar_of_not_mem (sep : Char) (s : PyStr) (h : sep ∉ s) :
    pySplitOnChar sep s = [s] := by
  induction s with
  | nil => rfl
  | cons c t ih =>
    simp only [List.mem_cons, not_or] at h
    obtain ⟨h1, h2⟩ := h
    rw [pySplitOnChar]
    rw [if_neg fun hc => h1 hc.symm, ih h2]

/-- C1: the claim that `filter_products_by_ingredient` with tag `SPF-30`
never returns a product whose name contains `SPF-300` is false: the
match is a plain substring test, `SPF-300` contains `SPF-30`, and the
product below is returned. -/
theorem c1_counterexample_spf300_matches :
    filter_products_by_ingredient [⟨("Regen SPF-300 Lotion").toList, 100⟩]
        (("SPF-30").toList) =
      .ok [⟨("Regen SPF-300 Lotion").toList, 100⟩] ∧
    pyIn (("SPF-300").toList) (("Regen SPF-300 Lotion").toList) = true ∧
    pyIn (("SPF-30 ").toList) (("Regen SPF-300 Lotion").toList) = false :=
  ⟨rfl, rfl, rfl⟩

/-- C1 amended: filtering with tag `SPF-30` returns exactly the products
whose name contains `SPF-30` or `SPF 30` as a plain substring; since
`SPF-300` contains `SPF-30` as a substring, a product marked `SPF-300`
is also returned. -/
theorem c1_amended_spf30_substring_filter (products res : List Product)
    (h : filter_products_by_ingredient products (("SPF-30").toList) = .ok res) :
    ∀ p : Product, p ∈ res ↔
      p ∈ products ∧
        (pyIn (("SPF-30").toList) p.name = true ∨
          pyIn (("SPF 30").toList) p.name = true) := by
  have heq : filter_products_by_ingredient products (("SPF-30").toList) =
      .ok (products.filter fun p =>
        pyIn (("SPF-30").toList) p.name || pyIn (("SPF 30").toList) p.name) := rfl
  rw [heq] at h
  obtain rfl : _ = res := Except.ok.inj h
  intro p
  simp [List.mem_filter, Bool.or_eq_true]

/-- C1 witness: the amended characterization instantiated on a concrete
one-item catalog and its `SPF-300` item. -/
theorem c1_amended_witness :
    (⟨("Regen SPF-300 Lotion").toList, 100⟩ : Product) ∈
        ([⟨("Regen SPF-300 Lotion").toList, 100⟩] : List Product) ↔
      (⟨("Regen SPF-300 Lotion").toList, 100⟩ : Product) ∈
          ([⟨("Regen SPF-300 Lotion").toList, 100⟩] : List Product) ∧
        (pyIn (("SPF-30").toList) (("Regen SPF-300 Lotion").toList) = true ∨
          pyIn (("SPF 30").toList) (("Regen SPF-300 Lotion").toList) = true) :=
  c1_amended_spf30_substring_filter
    [⟨("Regen SPF-300 Lotion").toList, 100⟩] _ rfl
    ⟨("Regen SPF-300 Lotion").toList, 100⟩

/-- C10: for every product list, an ingredient tag that contains `SPF`
but no hyphen makes `filter_products_by_ingredient` raise `IndexError`
(`ingredient.split("-")[1]` on a one-piece split). -/
theorem c10_spf_tag_without_hyphen_raises (products : List Product) (ingredient : PyStr)
    (h1 : pyIn (("SPF").toList) ingredient = true)
    (h2 : '-' ∉ ingredient) :
    filter_products_by_ingredient products ingredient = .error .indexError := by
  unfold filter_products_by_ingredient
  rw [pySplitOnChar_of_not_mem '-' ingredient h2, h1]
  rfl

/-- C10 witness: the tag `SPF 30` contains `SPF`, has no hyphen, and
makes the filter raise `IndexError` on a concrete catalog. -/
theorem c10_witness :
    pyIn (("SPF").toList) (("SPF 30").toList) = true ∧
    '-' ∉ (("SPF 30").toList) ∧
    filter_products_by_ingredient [⟨("Lotus SPF 30 Cream").toList, 200⟩]
        (("SPF 30").toList) = .error .indexError :=
  ⟨rfl, by decide,
    c10_spf_tag_without_hyphen_raises [⟨("Lotus SPF 30 Cream").toList, 200⟩]
      (("SPF 30").toList) rfl (by decide)⟩

/-- The running-minimum loop of Python `min(..., key=price)`: the result
is an element of `best :: l`, is `≤` every element, and every element
strictly before it in the list has a strictly larger price (the first
occurrence of the minimum wins). -/
theorem min_by_price_spec (l : List Product) : ∀ best : Product,
    ∃ l₁ p l₂, min_by_price best l = p ∧ best :: l = l₁ ++ p :: l₂ ∧
      (∀ q ∈ best :: l, p.price ≤ q.price) ∧ ∀ q ∈ l₁, p.price < q.price := by
  induction l with
  | nil =>
    intro best
    exact ⟨[], best, [], rfl, rfl, by simp, by simp⟩
  | cons x t ih =>
    intro best
    by_cases hx : x.price < best.price
    · obtain ⟨l₁, p, l₂, h1, h2, h3, h4⟩ := ih x
      have hpx : p.price ≤ x.price := h3 x (by simp)
      refine ⟨best :: l₁, p, l₂, ?_, ?_, ?_, ?_⟩
      · simp only [min_by_price, if_pos hx]
        exact h1
      · rw [List.cons_append, ← h2]
      · intro q hq
        rcases List.mem_cons.mp hq with rfl | hq2
        · exact le_of_lt (lt_of_le_of_lt hpx hx)
        · exact h3 q hq2
      · intro q hq
        rcases List.mem_cons.mp hq with rfl | hq2
        · exact lt_of_le_of_lt hpx hx
        · exact h4 q hq2
    · obtain ⟨l₁, p, l₂, h1, h2, h3, h4⟩ := ih best
      have hbx : best.price ≤ x.price := le_of_not_lt hx
      have hmin : min_by_price best (x :: t) = p := by
        simp only [min_by_price, if_neg hx]
        exact h1
      cases l₁ with
      | nil =>
        simp only [List.nil_append] at h2
        injection h2 with ha hb
        subst ha
        subst hb
        refine ⟨[], best, x :: t, hmin, rfl, ?_, by simp⟩
        intro q hq
        rcases List.mem_cons.mp hq with rfl | hq2
        · exact le_refl _
        rcases List.mem_cons.mp hq2 with rfl | hq3
        · exact hbx
        · exact h3 q (List.mem_cons_of_mem _ hq3)
      | cons b l₁x =>
        rw [List.cons_append] at h2
        injection h2 with ha ht
        subst ha
        have hpb : p.price < best.price := h4 best (by simp)
        refine ⟨best :: x :: l₁x, p, l₂, hmin, ?_, ?_, ?_⟩
        · rw [ht]
          simp
        · intro q hq
          rcases List.mem_cons.mp hq with rfl | hq2
          · exact le_of_lt hpb
          rcases List.mem_cons.mp hq2 with rfl | hq3
          · exact le_of_lt (lt_of_lt_of_le hpb hbx)
          · exact h3 q (List.mem_cons_of_mem _ hq3)
        · intro q hq
          rcases List.mem_cons.mp hq with rfl | hq2
          · exact hpb
          rcases List.mem_cons.mp hq2 with rfl | hq3
          · exact lt_of_lt_of_le hpb hbx
          · exact h4 q (List.mem_cons_of_mem _ hq3)

/-- C4: `find_cheapest_product` returns `none` on the empty list; on
every non-empty list it returns a product of minimum price such that
everything strictly before it has a strictly larger price (first
occurrence wins); on the spec example it returns the first price-300
entry. -/
theorem c4_find_cheapest_stable_min :
    find_cheapest_product [] = none ∧
    (∀ ps : List Product, ps ≠ [] →
      ∃ l₁ p l₂, find_cheapest_product ps = some p ∧ ps = l₁ ++ p :: l₂ ∧
        (∀ q ∈ ps, p.price ≤ q.price) ∧ ∀ q ∈ l₁, p.price < q.price) ∧
    find_cheapest_product
        [⟨("x").toList, 500⟩, ⟨("y").toList, 300⟩, ⟨("z").toList, 300⟩] =
      some ⟨("y").toList, 300⟩ := by
  refine ⟨rfl, ?_, rfl⟩
  intro ps hps
  cases ps with
  | nil => exact absurd rfl hps
  | cons p t =>
    obtain ⟨l₁, q, l₂, h1, h2, h3, h4⟩ := min_by_price_spec t p
    refine ⟨l₁, q, l₂, ?_, h2, h3, h4⟩
    show some (min_by_price p t) = some q
    rw [h1]

/-- C4 witness: the stable-minimum property instantiated on the spec
example list. -/
theorem c4_witness :
    ∃ (l₁ : List Product) (p : Product) (l₂ : List Product),
      find_cheapest_product
          [⟨("x").toList, 500⟩, ⟨("y").toList, 300⟩, ⟨("z").toList, 300⟩] = some p ∧
      [⟨("x").toList, 500⟩, ⟨("y").toList, 300⟩, ⟨("z").toList, 300⟩] = l₁ ++ p :: l₂ ∧
      (∀ q ∈ ([⟨("x").toList, 500⟩, ⟨("y").toList, 300⟩, ⟨("z").toList, 300⟩] :
          List Product), p.price ≤ q.price) ∧
      ∀ q ∈ l₁, p.price < q.price :=
  c4_find_cheapest_stable_min.2.1
    [⟨("x").toList, 500⟩, ⟨("y").toList, 300⟩, ⟨("z").toList, 300⟩] (by decide)

/-- C2: the claim that the extracted price is the first contiguous digit
run is false: `get_all_products` concatenates every digit of the price
label, so `Price: 1,200` yields 1200, while its first digit run denotes
1. -/
theorem c2_counterexample_all_digits_concatenated :
    parse_product_card ⟨[("Sun Cream").toList, ("Price: 1,200").toList], true⟩ =
      some ⟨("Sun Cream").toList, 1200⟩ ∧
    (firstDigitRun (("Price: 1,200").toList)).map digitsToNat = some 1 ∧
    (1200 : Nat) ≠ 1 :=
  ⟨rfl, rfl, by decide⟩

/-- Unfolding equation of `price_from_label` on a found label. -/
theorem price_from_label_some (name price_text : PyStr) (b : Bool) :
    price_from_label name (some price_text) b =
      match price_text.filter Char.isDigit with
      | [] => none
      | d :: ds => if b then some ⟨name, digitsToNat (d :: ds)⟩ else none := rfl

/-- C2 amended: for every card whose designated price label is read, the
extracted price is the integer denoted by the concatenation of all
digit characters of the label; a card whose label has no digit at all
is skipped, never given a default price. -/
theorem c2_amended_price_concat_or_skip (c : Card) (price_text : PyStr)
    (hp : c.paragraphs.find? (fun p => pyIn (("Price").toList) p) = some price_text) :
    (price_text.filter Char.isDigit = [] → parse_product_card c = none) ∧
    ∀ prod, parse_product_card c = some prod →
      prod.price = digitsToNat (price_text.filter Char.isDigit) := by
  cases hps : c.paragraphs with
  | nil => rw [hps] at hp; simp at hp
  | cons p0 rest =>
    have hpc : parse_product_card c =
        price_from_label (pyStrip p0) (some price_text) c.hasButton := by
      unfold parse_product_card
      rw [hps, ← hp, hps]
    rw [hpc, price_from_label_some]
    constructor
    · intro hds
      rw [hds]
    · intro prod h
      cases hds : price_text.filter Char.isDigit with
      | nil => rw [hds] at h; exact absurd h (by simp)
      | cons d ds =>
        rw [hds] at h
        cases hbtn : c.hasButton with
        | false => rw [hbtn] at h; simp at h
        | true =>
          rw [hbtn] at h
          simp only [if_true] at h
          obtain rfl : _ = prod := Option.some.inj h
          rfl

/-- C2 witness: the amended price rule instantiated on a concrete card
whose label is `Price: 1,200`. -/
theorem c2_amended_witness :
    ((("Price: 1,200").toList.filter Char.isDigit = [] →
        parse_product_card ⟨[("Sun Cream").toList, ("Price: 1,200").toList], true⟩ = none)) ∧
    ∀ prod,
      parse_product_card ⟨[("Sun Cream").toList, ("Price: 1,200").toList], true⟩ = some prod →
        prod.price = digitsToNat (("Price: 1,200").toList.filter Char.isDigit) :=
  c2_amended_price_concat_or_skip
    ⟨[("Sun Cream").toList, ("Price: 1,200").toList], true⟩ (("Price: 1,200").toList) rfl

/-! ### Product pair selection (`pages/product_page.py`, continued) -/

/-- `ProductPage.select_moisturizer_products`: cheapest Aloe match and
cheapest Almond match (tags without `SPF`, so the filter cannot raise,
but the embedding keeps its `Except` plumbing). -/
def select_moisturizer_products (catalog : List Product) :
    Except PyError (Option Product × Option Product) :=
  match filter_products_by_ingredient catalog (("Aloe").toList) with
  | .error e => .error e
  | .ok aloe =>
    match filter_products_by_ingredient catalog (("Almond").toList) with
    | .error e => .error e
    | .ok almond => .ok (find_cheapest_product aloe, find_cheapest_product almond)

/-- `ProductPage.select_sunscreen_products`: cheapest SPF-30 match and
cheapest SPF-50 match. -/
def select_sunscreen_products (catalog : List Product) :
    Except PyError (Option Product × Option Product) :=
  match filter_products_by_ingredient catalog (("SPF-30").toList) with
  | .error e => .error e
  | .ok spf30 =>
    match filter_products_by_ingredient catalog (("SPF-50").toList) with
    | .error e => .error e
    | .ok spf50 => .ok (find_cheapest_product spf30, find_cheapest_product spf50)

/-- The category dispatch at the head of
`ProductPage.add_selected_products_to_cart` (lines 248-253): unknown
categories raise `ValueError`. -/
def selected_pair_for_category (catalog : List Product) (product_category : String) :
    Except PyError (Option Product × Option Product) :=
  if product_category = "moisturizers" then select_moisturizer_products catalog
  else if product_category = "sunscreens" then select_sunscreen_products catalog
  else .error .unknownCategory

/-- An observable cart mutation: one click of a product's add button
(`ProductPage.add_product_to_cart`). -/
inductive CartAction where
  | addToCart (p : Product) : CartAction
  deriving Repr, DecidableEq

/-- `ProductPage.add_selected_products_to_cart`: resolve the pair for
the category; if either side is missing, raise (`Could not find
required products`) before any add click; otherwise click both add
buttons in order and return the pair with its price sum.  The second
component lists the add clicks performed. -/
def add_selected_products_to_cart (catalog : List Product) (product_category : String) :
    Except PyError ((Product × Product) × Nat) × List CartAction :=
  match selected_pair_for_category catalog product_category with
  | .error e => (.error e, [])
  | .ok (some p1, some p2) =>
    (.ok ((p1, p2), p1.price + p2.price), [.addToCart p1, .addToCart p2])
  | .ok _ => (.error .selectionIncomplete, [])

/-- C8: whenever the selected pair for a category has a missing side,
`add_selected_products_to_cart` fails with the selection-incomplete
error and performs no add click at all. -/
theorem c8_partial_pair_never_added (catalog : List Product) (category : String)
    (p1 p2 : Option Product)
    (hsel : selected_pair_for_category catalog category = .ok (p1, p2))
    (hnone : p1 = none ∨ p2 = none) :
    add_selected_products_to_cart catalog category = (.error .selectionIncomplete, []) := by
  unfold add_selected_products_to_cart
  rw [hsel]
  rcases hnone with rfl | rfl
  · cases p2 <;> rfl
  · cases p1 <;> rfl

/-- C8 witness: on an empty catalog, the moisturizer pair is
`(none, none)` and the add step fails without clicking anything. -/
theorem c8_witness :
    selected_pair_for_category [] "moisturizers" = .ok (none, none) ∧
    add_selected_products_to_cart [] "moisturizers" =
      (.error .selectionIncomplete, []) :=
  ⟨rfl, c8_partial_pair_never_added [] "moisturizers" none none rfl (Or.inl rfl)⟩

/-! ### Cart page (`pages/cart_page.py`) -/

/-- A parsed cart line: stripped name, parsed price, raw price text
(the dict built at lines 138-142). -/
structure CartLine where
  name : PyStr
  price : Nat
  price_text : PyStr
  deriving Repr, DecidableEq

/-- Raw input of `CartPage.get_cart_items` for one table row: the text
of its `td` cells. -/
structure CartRow where
  cells : List PyStr
  deriving Repr, DecidableEq

/-- Parsing of one row with at least two cells: skip it when the price
cell has no digit (header/malformed row), else take the first digit
run of the comma-free price text. -/
def parse_row_cells (c0 c1 : PyStr) : Option CartLine :=
  let name := pyStrip c0
  let price_text := pyStrip c1
  if price_text.any Char.isDigit then
    match firstDigitRun (removeCommas price_text) with
    | some run => some ⟨name, digitsToNat run, price_text⟩
    | none => none
  else none

/-- Body of the per-row loop of `CartPage.get_cart_items`: rows with
fewer than two cells are only logged and skipped. -/
def parse_cart_row (r : CartRow) : Option CartLine :=
  match r.cells with
  | c0 :: c1 :: _ => parse_row_cells c0 c1
  | _ => none

/-- `CartPage.get_cart_items`: every row that parses. -/
def get_cart_items (rows : List CartRow) : List CartLine :=
  rows.filterMap parse_cart_row

/-- `CartPage.calculate_expected_total`: sum of the parsed prices. -/
def calculate_expected_total (rows : List CartRow) : Nat :=
  ((get_cart_items rows).map CartLine.price).sum

/-- Parsing of the total field text in `CartPage.get_displayed_total`:
first digit run of the comma-free stripped text, 0 when none. -/
def parse_total_text (t : PyStr) : Nat :=
  match firstDigitRun (removeCommas (pyStrip t)) with
  | some run => digitsToNat run
  | none => 0

/-- `CartPage.get_displayed_total`: `none` models the `#total` element
being unreadable (`find_element` raising); every failure path returns
0. -/
def get_displayed_total (total_text : Option PyStr) : Nat :=
  match total_text with
  | none => 0
  | some t => parse_total_text t

/-- A string with no digit character has no digit run. -/
theorem firstDigitRun_eq_none (s : PyStr) (h : ∀ c ∈ s, c.isDigit = false) :
    firstDigitRun s = none := by
  induction s with
  | nil => rfl
  | cons c t ih =>
    have hc := h c (by simp)
    simp only [firstDigitRun, hc, Bool.false_eq_true, if_false]
    exact ih fun x hx => h x (List.mem_cons_of_mem _ hx)

/-- Stripping only removes characters. -/
theorem mem_pyStrip {a : Char} {s : PyStr} (h : a ∈ pyStrip s) : a ∈ s := by
  unfold pyStrip at h
  rw [List.mem_reverse] at h
  have h2 : a ∈ (s.dropWhile Char.isWhitespace).reverse :=
    (List.dropWhile_sublist _).subset h
  rw [List.mem_reverse] at h2
  exact (List.dropWhile_sublist _).subset h2

/-- C5: a cart row whose price cell has no digit is discarded (never
recorded with price 0): it parses to no line, adding it anywhere in the
row list changes neither the snapshot lines nor the expected total, and
the expected total is the sum of the prices of the included lines. -/
theorem c5_digitless_row_discarded (r : CartRow) (c0 c1 : PyStr) (rest : List PyStr)
    (hc : r.cells = c0 :: c1 :: rest)
    (hd : (pyStrip c1).any Char.isDigit = false) :
    parse_cart_row r = none ∧
    (∀ pre post : List CartRow,
      get_cart_items (pre ++ r :: post) = get_cart_items (pre ++ post)) ∧
    (∀ pre post : List CartRow,
      calculate_expected_total (pre ++ r :: post) =
        calculate_expected_total (pre ++ post)) ∧
    ∀ rows : List CartRow,
      calculate_expected_total rows = ((get_cart_items rows).map CartLine.price).sum := by
  have hnone : parse_cart_row r = none := by
    have hr : parse_cart_row r = parse_row_cells c0 c1 := by
      unfold parse_cart_row
      rw [hc]
    rw [hr]
    simp [parse_row_cells, hd]
  have hitems : ∀ pre post : List CartRow,
      get_cart_items (pre ++ r :: post) = get_cart_items (pre ++ post) := by
    intro pre post
    simp [get_cart_items, List.filterMap_append, List.filterMap_cons, hnone]
  refine ⟨hnone, hitems, ?_, fun rows => rfl⟩
  intro pre post
  simp [calculate_expected_total, hitems]

/-- C5 witness: a `N/A`-priced row parses to nothing and leaves the
snapshot and expected total of a one-item cart unchanged. -/
theorem c5_witness :
    parse_cart_row ⟨[("Widget").toList, ("N/A").toList]⟩ = none ∧
    get_cart_items
        ([⟨[("Soap").toList, ("Price: 100").toList]⟩] ++
          ⟨[("Widget").toList, ("N/A").toList]⟩ :: []) =
      get_cart_items ([⟨[("Soap").toList, ("Price: 100").toList]⟩] ++ []) ∧
    calculate_expected_total
        ([⟨[("Soap").toList, ("Price: 100").toList]⟩] ++
          ⟨[("Widget").toList, ("N/A").toList]⟩ :: []) =
      calculate_expected_total ([⟨[("Soap").toList, ("Price: 100").toList]⟩] ++ []) :=
  have h := c5_digitless_row_discarded ⟨[("Widget").toList, ("N/A").toList]⟩
    (("Widget").toList) (("N/A").toList) [] rfl rfl
  ⟨h.1, h.2.1 [⟨[("Soap").toList, ("Price: 100").toList]⟩] [],
    h.2.2.1 [⟨[("Soap").toList, ("Price: 100").toList]⟩] []⟩

/-- C9: the displayed-total read returns 0 when the field is unreadable
or its text has no digit, and otherwise the value of the first digit
run of the comma-free text; it never raises. -/
theorem c9_displayed_total_first_run_or_zero :
    get_displayed_total none = 0 ∧
    (∀ t : PyStr, t.any Char.isDigit = false → get_displayed_total (some t) = 0) ∧
    ∀ t run, firstDigitRun (removeCommas (pyStrip t)) = some run →
      get_displayed_total (some t) = digitsToNat run := by
  refine ⟨rfl, ?_, ?_⟩
  · intro t ht
    have hnone : firstDigitRun (removeCommas (pyStrip t)) = none := by
      apply firstDigitRun_eq_none
      intro c hc
      have hct : c ∈ t := mem_pyStrip (List.mem_filter.mp hc).1
      have := List.any_eq_false.mp ht c hct
      simpa using this
    show parse_total_text t = 0
    unfold parse_total_text
    rw [hnone]
  · intro t run h
    show parse_total_text t = digitsToNat run
    unfold parse_total_text
    rw [h]

/-- C9 witness: the displayed-total rules evaluated on a digitless text
and on `Total: 1,200` (commas removed before the run is taken). -/
theorem c9_witness :
    get_displayed_total (some (("Total: Rupees").toList)) = 0 ∧
    get_displayed_total (some (("Total: 1,200").toList)) =
      digitsToNat (("1200").toList) :=
  ⟨c9_displayed_total_first_run_or_zero.2.1 (("Total: Rupees").toList) rfl,
    c9_displayed_total_first_run_or_zero.2.2 (("Total: 1,200").toList)
      (("1200").toList) rfl⟩

/-! ### Payment page (`pages/payment_page.py`)

`submit_payment_form` is driver-effecting code; its embedding records
the frame-context switches and clicks it performs as an event trace and
returns them next to its `Except` outcome. -/

/-- A driver interaction performed by the payment submit step. -/
inductive FrameEvent where
  /-- `frame_to_be_available_and_switch_to_it` succeeded. -/
  | enterFrame : FrameEvent
  /-- `driver.switch_to.default_content()`. -/
  | exitFrame : FrameEvent
  /-- JS click on the `Payer` button. -/
  | clickPayer : FrameEvent
  /-- JS click on the generic `button[type=submit]` fallback. -/
  | clickFallback : FrameEvent
  deriving Repr, DecidableEq

/-- Environment of one run of `PaymentPage.submit_payment_form`: which
lookups succeed and which clicks go through without throwing. -/
structure SubmitEnv where
  /-- the Stripe checkout iframe becomes available within the wait. -/
  frameAvailable : Bool
  /-- `find_element` locates the `Payer` button. -/
  payerFound : Bool
  /-- the JS click on the `Payer` button does not throw. -/
  payerClickOk : Bool
  /-- `find_element` locates the `button[type=submit]` fallback. -/
  fallbackFound : Bool
  /-- the JS click on the fallback does not throw. -/
  fallbackClickOk : Bool
  deriving Repr, DecidableEq

/-- `PaymentPage.submit_payment_form` (lines 217-239).  The outer `try`
switches into the payment frame; the inner `try` clicks `Payer`, and on
any failure there the `except` clicks the generic submit control; the
happy path ends with `default_content()`, and the outer `except` also
calls `default_content()` before re-raising.  A wait timeout (frame
never available) raises before any frame switch; its handler still
calls `default_content()`. -/
def submit_payment_form (env : SubmitEnv) : Except PyError Unit × List FrameEvent :=
  if env.frameAvailable then
    let inner : Except PyError Unit × List FrameEvent :=
      if env.payerFound && env.payerClickOk then (.ok (), [.clickPayer])
      else if env.fallbackFound && env.fallbackClickOk then (.ok (), [.clickFallback])
      else (.error .noSuchElement, [])
    match inner with
    | (.ok _, evs) => (.ok (), .enterFrame :: evs ++ [.exitFrame])
    | (.error e, evs) => (.error e, .enterFrame :: evs ++ [.exitFrame])
  else
    (.error .timeoutError, [.exitFrame])

/-- Replay of a trace against the driver's frame context: `true` when
the driver is left inside the payment frame. -/
def inPaymentFrame (evs : List FrameEvent) : Bool :=
  evs.foldl
    (fun s e =>
      match e with
      | .enterFrame => true
      | .exitFrame => false
      | _ => s)
    false

/-- `PaymentPage.submit_payment` (lines 304-325): submit the form, then
poll for a success indicator within the bounded wait; the wait raising
on timeout is caught and mapped to `False`.  `successPolls` lists the
outcomes of the bounded sequence of `is_element_present` polls. -/
def submit_payment (env : SubmitEnv) (successPolls : List Bool) :
    Bool × List FrameEvent :=
  match submit_payment_form env with
  | (.ok _, evs) => (successPolls.any id, evs)
  | (.error _, evs) => (false, evs)

/-- C7: on every execution path of the payment submit step — primary
click, fallback click, or any step throwing (frame wait timeout, both
lookups failing, clicks throwing) — the driver is returned to the
top-level page context. -/
theorem c7_frame_context_always_released (env : SubmitEnv) :
    inPaymentFrame (submit_payment_form env).2 = false := by
  obtain ⟨a, b, c, d, e⟩ := env
  cases a <;> cases b <;> cases c <;> cases d <;> cases e <;> rfl

/-- C6: if the form submission reaches the submitted state and no poll
within the bounded wait observes a success indicator, `submit_payment`
returns the definite outcome `false` — its codomain has no pending or
ambiguous value. -/
theorem c6_timeout_resolves_to_failed (env : SubmitEnv) (polls : List Bool)
    (hsub : (submit_payment_form env).1 = .ok ())
    (hno : ∀ b ∈ polls, b = false) :
    (submit_payment env polls).1 = false := by
  unfold submit_payment
  cases hform : submit_payment_form env with
  | mk res evs =>
    rw [hform] at hsub
    cases res with
    | error e => exact absurd hsub (by simp)
    | ok u =>
      simp only []
      rw [List.any_eq_false]
      intro x hx
      rw [hno x hx]
      simp

/-- C6 witness: a run whose frame is available and whose `Payer` click
succeeds, with every poll of the bounded wait failing, returns
`false`. -/
theorem c6_witness :
    (submit_payment_form ⟨true, true, true, false, false⟩).1 = .ok () ∧
    (submit_payment ⟨true, true, true, false, false⟩ [false, false, false]).1 = false :=
  ⟨rfl, c6_timeout_resolves_to_failed ⟨true, true, true, false, false⟩
    [false, false, false] rfl (by decide)⟩

end WeatherShopper
